import Mathlib

/-!
Shallow embedding of the Conference Room Booking system's booking service
(the Booking Orchestrator, its Booking Store queries, the price calculator
and the weather client), together with theorems about its behaviour.

Sources embedded:
* services/booking-service/src/utils/priceCalculator.js
* services/booking-service/src/services/weatherService.js
* services/booking-service/src/services/roomService.js (validateRoom)
* services/booking-service/src/middleware/validators.js (bookingValidation)
* services/booking-service/src/controllers/bookingController.js
* services/booking-service/src/models/Booking.js (schema and indexes)

Modelling conventions: JS numbers are modelled as rationals; MongoDB
documents are records in insertion order (the natural order used by
findOne and by an unadorned sort); a sort with a single key is modelled
by a stable sort on that key; external HTTP calls (room catalog, weather
oracle) are modelled by passing their outcome as an explicit argument.
-/

namespace ConferenceBooking

/-! ### Price calculator (utils/priceCalculator.js) -/

/-- JS Math.round: rounds half toward positive infinity. -/
def jsRound (x : ℚ) : ℤ := ⌊x + 1 / 2⌋

/-- Rounding to 2 decimal places as the source does it:
Math.round(adjustedPrice * 100) / 100. -/
def round2 (x : ℚ) : ℚ := (jsRound (x * 100) : ℚ) / 100

/-- Rounding to 2 decimal places "using standard half-up rounding" as the
spec words it: half rounds away from zero. Coincides with round2 on
nonnegative inputs. -/
def specRound2 (x : ℚ) : ℚ :=
  (if 0 ≤ x then (⌊x * 100 + 1 / 2⌋ : ℚ) else -(⌊-x * 100 + 1 / 2⌋ : ℚ)) / 100

structure PriceResult where
  deviation : ℚ
  adjustedPrice : ℚ
deriving DecidableEq, Repr

/-- calculateAdjustedPrice(basePrice, temperature, comfortableTemp, factor):
deviation = Math.abs(temperature - comfortableTemp);
adjustedPrice = basePrice * (1 + deviation * factor), rounded to 2 decimals.
The source's default arguments (21 and 0.05) are always overridden by the
controller, which passes both explicitly. -/
def calculateAdjustedPrice (basePrice temperature comfortableTemp factor : ℚ) :
    PriceResult :=
  let deviation := |temperature - comfortableTemp|
  let adjustedPrice := basePrice * (1 + deviation * factor)
  { deviation := deviation, adjustedPrice := round2 adjustedPrice }

/-! ### Weather client (services/weatherService.js, the module required by the
booking controller) -/

structure Forecast where
  temperature : ℚ
  deviation : ℚ
  comfortableTemperature : ℚ
  cached : Bool
  fallback : Bool
deriving DecidableEq, Repr

/-- The JSON body of a 2xx response from the weather oracle:
response.data.success plus response.data.data. -/
structure WeatherBody where
  success : Bool
  data : Forecast
deriving DecidableEq, Repr

/-- Outcome of the axios GET to the weather oracle. httpError is a non-2xx
response (error.response.status together with error.response.data.error);
networkError is a request that produced no response (error.code, e.g.
ECONNABORTED for the axios timeout, ECONNREFUSED for connection refused). -/
inductive WeatherCallOutcome
  | success (body : WeatherBody)
  | httpError (status : Nat) (errorMsg : Option String)
  | networkError (code : String)
deriving DecidableEq, Repr

def charsStartWith : List Char → List Char → Bool
  | [], _ => true
  | _ :: _, [] => false
  | a :: as, b :: bs => a == b && charsStartWith as bs

def charsContain (pat : List Char) : List Char → Bool
  | [] => charsStartWith pat []
  | c :: cs => charsStartWith pat (c :: cs) || charsContain pat cs

/-- JS String.prototype.includes. -/
def strContains (s pat : String) : Bool := charsContain pat.data s.data

/-- The default forecast the weather client substitutes when rate limited or
unavailable: comfortable temperature, zero deviation, fallback flag set. -/
def defaultForecast (comfortableTemp : ℚ) : Forecast :=
  { temperature := comfortableTemp
    deviation := 0
    comfortableTemperature := comfortableTemp
    cached := false
    fallback := true }

/-- The catch-block condition of getForecast: error.response?.status === 429,
or error.response?.data?.error?.includes('Too many requests'), or
error.response?.status === 503, or error.code === 'ECONNABORTED'. -/
def rateLimitedOrUnavailable : WeatherCallOutcome → Bool
  | .httpError status errorMsg =>
      status == 429 ||
        (match errorMsg with
         | some m => strContains m "Too many requests"
         | none => false) ||
        status == 503
  | .networkError code => code == "ECONNABORTED"
  | .success _ => false

/-- The message of the error rethrown by getForecast:
error.response?.data?.error || 'Weather service unavailable'
(an empty string is falsy in JS). -/
def thrownMessage : WeatherCallOutcome → String
  | .httpError _ errorMsg =>
      match errorMsg with
      | some m => if m.isEmpty then "Weather service unavailable" else m
      | none => "Weather service unavailable"
  | _ => "Weather service unavailable"

/-- getForecast(locationId, date) of the weather client wired into the booking
controller. A 2xx body with success=false throws a plain Error, which the
catch block (seeing neither response status nor error code on it) rethrows as
'Weather service unavailable'. Only the rate-limited/503/timeout conditions
produce the default forecast; every other failure is rethrown. -/
def getForecast (comfortableTemp : ℚ) : WeatherCallOutcome → Except String Forecast
  | .success body =>
      if body.success then .ok body.data else .error "Weather service unavailable"
  | o =>
      if rateLimitedOrUnavailable o then .ok (defaultForecast comfortableTemp)
      else .error (thrownMessage o)

/-! ### Dates and request validation (middleware/validators.js and the
controller's own date check) -/

def digitVal (c : Char) : Nat := c.toNat - 48

/-- The validator regex for the date field: matches(/^\d{4}-\d{2}-\d{2}$/). -/
def matchesDateShape (s : String) : Bool :=
  match s.data with
  | [y1, y2, y3, y4, h1, m1, m2, h2, d1, d2] =>
      y1.isDigit && y2.isDigit && y3.isDigit && y4.isDigit && h1 == '-' &&
        m1.isDigit && m2.isDigit && h2 == '-' && d1.isDigit && d2.isDigit
  | _ => false

def isLeapYear (y : Nat) : Bool := (y % 4 == 0 && y % 100 != 0) || y % 400 == 0

def daysInMonth (y m : Nat) : Nat :=
  if m == 2 then (if isLeapYear y then 29 else 28)
  else if m == 4 || m == 6 || m == 9 || m == 11 then 30
  else 31

/-- JS new Date(s) for a string of shape YYYY-MM-DD: the date-time string
format gives UTC midnight for a real calendar date, and Invalid Date (NaN,
modelled as none) when the month or day is out of range. The value is
encoded order-preservingly as y*10000 + m*100 + d, which orders exactly as
the epoch-milliseconds of the corresponding UTC midnights do. The
controller runs this only on strings the validator's regex has accepted. -/
def jsDateCode (s : String) : Option Nat :=
  match s.data with
  | [y1, y2, y3, y4, _, m1, m2, _, d1, d2] =>
      let y := digitVal y1 * 1000 + digitVal y2 * 100 + digitVal y3 * 10 + digitVal y4
      let m := digitVal m1 * 10 + digitVal m2
      let d := digitVal d1 * 10 + digitVal d2
      if 1 ≤ m && m ≤ 12 && 1 ≤ d && d ≤ daysInMonth y m
      then some (y * 10000 + m * 100 + d)
      else none
  | _ => none

def isHexChar (c : Char) : Bool :=
  c.isDigit || ('a' ≤ c && c ≤ 'f') || ('A' ≤ c && c ≤ 'F')

/-- express-validator isMongoId: a 24-character hex string. -/
def isMongoId (s : String) : Bool := s.length == 24 && s.data.all isHexChar

/-- bookingValidation of middleware/validators.js: roomId notEmpty and
isMongoId; date notEmpty, matching ^\d{4}-\d{2}-\d{2}$, and the custom check
that throws when new Date(date) < today (midnight). A NaN date makes that
comparison false, so the custom check passes Invalid Dates through. `today`
is the UTC-midnight code of the current day. -/
def bookingValidationPasses (roomId date : String) (today : Nat) : Bool :=
  !roomId.data.isEmpty && isMongoId roomId && !date.data.isEmpty &&
    matchesDateShape date &&
      (match jsDateCode date with
       | some t => decide (¬ t < today)
       | none => true)

/-- Step 1 of the controller's createBooking: bookingDate < today, where both
sides are midnight Date values and a NaN comparison is false. -/
def dateIsPast (date : String) (today : Nat) : Bool :=
  match jsDateCode date with
  | some t => decide (t < today)
  | none => false

/-! ### Stable sorting on string keys (model of a single-key MongoDB sort) -/

def insertBy {α : Type} (le : α → α → Bool) (x : α) : List α → List α
  | [] => [x]
  | y :: ys => if le x y then x :: y :: ys else y :: insertBy le x ys

/-- Stable insertion sort: elements that compare equal keep their original
relative order. -/
def sortBy {α : Type} (le : α → α → Bool) : List α → List α
  | [] => []
  | x :: xs => insertBy le x (sortBy le xs)

/-- Bytewise (code-point) lexicographic comparison, as MongoDB compares the
YYYY-MM-DD bookingDate strings. -/
def charListLe : List Char → List Char → Bool
  | [], _ => true
  | _ :: _, [] => false
  | a :: as, b :: bs => if a = b then charListLe as bs else decide (a < b)

def strLe (s t : String) : Bool := charListLe s.data t.data

/-! ### Data model (models/Booking.js) -/

inductive BookingStatus
  | confirmed
  | cancelled
  | completed
deriving DecidableEq, Repr

def statusString : BookingStatus → String
  | .confirmed => "confirmed"
  | .cancelled => "cancelled"
  | .completed => "completed"

def isActiveStatus : BookingStatus → Bool
  | .confirmed => true
  | .completed => true
  | .cancelled => false

/-- One Booking document. bookingDate is stored as a YYYY-MM-DD string (as
the schema comments say). createdAt is modelled by the store's monotone
insertion counter; the source's random bookingReference generator is
modelled by a counter-derived unique string. -/
structure Booking where
  id : Nat
  userId : String
  roomId : String
  bookingDate : String
  bookingReference : String
  basePrice : ℚ
  temperature : ℚ
  deviation : ℚ
  adjustedPrice : ℚ
  status : BookingStatus
  userEmail : String
  userName : String
  roomName : String
  locationName : String
  createdAt : Nat
deriving DecidableEq, Repr

/-- The booking collection: documents in insertion order, plus the id /
creation counter. -/
structure Store where
  bookings : List Booking
  nextId : Nat
deriving DecidableEq, Repr

def emptyStore : Store := { bookings := [], nextId := 0 }

/-- The authenticated principal attached by the auth middleware. -/
structure Principal where
  id : String
  email : String
  name : String
  role : String
deriving DecidableEq, Repr

/-- The room snapshot returned by the room catalog (with its location
populated: the controller reads room.locationId._id and
room.locationId.name). -/
structure Room where
  id : String
  name : String
  locationId : String
  locationName : String
  capacity : Nat
  basePrice : ℚ
  isActive : Bool
deriving DecidableEq, Repr

/-! ### Booking store queries -/

/-- The availability-probe predicate of createBooking's findOne:
roomId and bookingDate equal and status in ['confirmed', 'completed']. -/
def activePred (roomId date : String) (b : Booking) : Bool :=
  b.roomId == roomId && b.bookingDate == date && isActiveStatus b.status

/-- Booking.findOne over the collection in natural (insertion) order. -/
def findOneActive (st : Store) (roomId date : String) : Option Booking :=
  st.bookings.find? (activePred roomId date)

def activeCount (st : Store) (roomId date : String) : Nat :=
  st.bookings.countP (activePred roomId date)

/-- The central invariant: at most one live (confirmed or completed) booking
per (roomId, bookingDate) slot. -/
def UniqueActiveInv (st : Store) : Prop :=
  ∀ roomId date, activeCount st roomId date ≤ 1

def findById (st : Store) (id : Nat) : Option Booking :=
  st.bookings.find? (fun b => b.id == id)

/-! ### Room client (services/roomService.js) -/

/-- validateRoom given the outcome of getRoomById: rethrows lookup errors and
throws 'Room is not available for booking' when the room is inactive. -/
def validateRoom (lookup : Except String Room) : Except String Room :=
  match lookup with
  | .error msg => .error msg
  | .ok room => if room.isActive then .ok room else .error "Room is not available for booking"

/-! ### createBooking (controllers/bookingController.js) -/

/-- Everything the controller reads besides the store: the request, the
authenticated user, today's date, the configured pricing parameters, and the
outcomes of the external calls (room lookup, weather call) and of the final
save (a some value is the message of a storage error thrown by
booking.save(), e.g. a duplicate-key error; none means the insert
succeeds). -/
structure CreateEnv where
  user : Principal
  roomId : String
  date : String
  today : Nat
  roomLookup : Except String Room
  weather : WeatherCallOutcome
  comfortableTemp : ℚ
  priceFactor : ℚ
  saveFailure : Option String
deriving Repr

/-- The price breakdown returned alongside a created booking. -/
structure PriceBreakdown where
  basePrice : ℚ
  temperature : ℚ
  comfortableTemperature : ℚ
  deviation : ℚ
  adjustmentFactor : ℚ
  adjustedPrice : ℚ
deriving DecidableEq, Repr

/-- The controller's possible responses. validationFailed is the 400 from the
validation middleware; invalidDate the controller's own 400 'Booking date
must be in the future'; slotAlreadyBooked the 400 'Room is already booked for
this date' carrying the conflicting booking's id, date and status;
serverError the generic 500 of the catch block. -/
inductive CreateResult
  | validationFailed
  | invalidDate
  | slotAlreadyBooked (conflictId : Nat) (conflictDate : String)
      (conflictStatus : BookingStatus)
  | created (booking : Booking) (breakdown : PriceBreakdown)
  | serverError (message : String)
deriving DecidableEq, Repr

/-- True exactly on the 201 success response. -/
def CreateResult.isCreated : CreateResult → Bool
  | .created _ _ => true
  | _ => false

def mkBooking (env : CreateEnv) (room : Room) (forecast : Forecast)
    (pr : PriceResult) (st : Store) : Booking :=
  { id := st.nextId
    userId := env.user.id
    roomId := env.roomId
    bookingDate := env.date
    bookingReference := "BK" ++ toString st.nextId
    basePrice := room.basePrice
    temperature := forecast.temperature
    deviation := pr.deviation
    adjustedPrice := pr.adjustedPrice
    status := .confirmed
    userEmail := env.user.email
    userName := env.user.name
    roomName := room.name
    locationName := room.locationName
    createdAt := st.nextId }

/-- POST /bookings. Steps in source order: request validation, the date
check, validateRoom, the availability findOne, getForecast,
calculateAdjustedPrice, then the insert. Any error thrown by the room
client, the weather client or the save lands in the catch block as a
generic 500 with the error's message. -/
def createBooking (env : CreateEnv) (st : Store) : CreateResult × Store :=
  if !bookingValidationPasses env.roomId env.date env.today then
    (.validationFailed, st)
  else if dateIsPast env.date env.today then
    (.invalidDate, st)
  else
    match validateRoom env.roomLookup with
    | .error msg => (.serverError msg, st)
    | .ok room =>
      match findOneActive st env.roomId env.date with
      | some existing =>
          (.slotAlreadyBooked existing.id existing.bookingDate existing.status, st)
      | none =>
        match getForecast env.comfortableTemp env.weather with
        | .error msg => (.serverError msg, st)
        | .ok forecast =>
          let pr := calculateAdjustedPrice room.basePrice forecast.temperature
            env.comfortableTemp env.priceFactor
          match env.saveFailure with
          | some msg => (.serverError msg, st)
          | none =>
            let b := mkBooking env room forecast pr st
            (.created b
              { basePrice := room.basePrice
                temperature := forecast.temperature
                comfortableTemperature := env.comfortableTemp
                deviation := pr.deviation
                adjustmentFactor := env.priceFactor
                adjustedPrice := pr.adjustedPrice },
             { bookings := st.bookings ++ [b], nextId := st.nextId + 1 })

/-! ### getUserBookings, getBookingById, cancelBooking, getAllBookings,
checkRoomAvailability -/

/-- Descending order on bookingDate, the single sort key of getUserBookings:
sort({ bookingDate: -1 }). -/
def bookingDateDescLe (a b : Booking) : Bool := strLe b.bookingDate a.bookingDate

def bookingDateAscLe (a b : Booking) : Bool := strLe a.bookingDate b.bookingDate

def createdAtDescLe (a b : Booking) : Bool := decide (b.createdAt ≤ a.createdAt)

/-- The find filter of getUserBookings: { userId } plus the optional status
query parameter. -/
def userBookingsFilter (userId : String) (statusFilter : Option String)
    (b : Booking) : Bool :=
  b.userId == userId &&
    (match statusFilter with
     | some s => statusString b.status == s
     | none => true)

inductive UserBookingsResult
  | forbidden
  | ok (bookings : List Booking)
deriving DecidableEq, Repr

/-- GET /bookings/user/:userId. -/
def getUserBookings (p : Principal) (userId : String) (statusFilter : Option String)
    (st : Store) : UserBookingsResult :=
  if p.id != userId && p.role != "admin" then .forbidden
  else .ok (sortBy bookingDateDescLe (st.bookings.filter (userBookingsFilter userId statusFilter)))

inductive GetBookingResult
  | notFound
  | forbidden
  | ok (booking : Booking)
deriving DecidableEq, Repr

/-- GET /bookings/:id. -/
def getBookingById (p : Principal) (id : Nat) (st : Store) : GetBookingResult :=
  match findById st id with
  | none => .notFound
  | some b =>
      if b.userId != p.id && p.role != "admin" then .forbidden else .ok b

inductive CancelResult
  | notFound
  | forbidden
  | alreadyCancelled
  | cannotCancelCompleted
  | cancelled (booking : Booking)
deriving DecidableEq, Repr

/-- DELETE /bookings/:id: find, authorize, guard the state machine, then flip
the status to cancelled and save. -/
def cancelBooking (p : Principal) (id : Nat) (st : Store) : CancelResult × Store :=
  match findById st id with
  | none => (.notFound, st)
  | some b =>
      if b.userId != p.id && p.role != "admin" then (.forbidden, st)
      else if b.status == BookingStatus.cancelled then (.alreadyCancelled, st)
      else if b.status == BookingStatus.completed then (.cannotCancelCompleted, st)
      else
        (.cancelled { b with status := BookingStatus.cancelled },
         { st with
            bookings := st.bookings.map (fun x =>
              if x.id == b.id then { x with status := BookingStatus.cancelled } else x) })

/-- A MongoDB query value: strings for string fields and the status enum,
numbers for the price fields, naturals for ids and timestamps. -/
inductive DocValue
  | str (s : String)
  | num (q : ℚ)
  | nat (n : Nat)
deriving DecidableEq, Repr

/-- Field lookup on a stored booking document, enumerating exactly the paths
of the Booking schema. A query on any other path (such as `date`) finds no
field. -/
def Booking.getField (b : Booking) : String → Option DocValue
  | "_id" => some (.nat b.id)
  | "userId" => some (.str b.userId)
  | "roomId" => some (.str b.roomId)
  | "bookingDate" => some (.str b.bookingDate)
  | "bookingReference" => some (.str b.bookingReference)
  | "basePrice" => some (.num b.basePrice)
  | "temperature" => some (.num b.temperature)
  | "deviation" => some (.num b.deviation)
  | "adjustedPrice" => some (.num b.adjustedPrice)
  | "status" => some (.str (statusString b.status))
  | "userEmail" => some (.str b.userEmail)
  | "userName" => some (.str b.userName)
  | "roomName" => some (.str b.roomName)
  | "locationName" => some (.str b.locationName)
  | "createdAt" => some (.nat b.createdAt)
  | _ => none

inductive AllBookingsResult
  | forbidden
  | ok (bookings : List Booking)
deriving DecidableEq, Repr

/-- The query object getAllBookings builds from req.query: status, date and
roomId are copied verbatim when present. Note the date filter is put under
the key `date`, not `bookingDate`. -/
def allBookingsFilters (statusF dateF roomIdF : Option String) :
    List (String × DocValue) :=
  (match statusF with | some s => [("status", DocValue.str s)] | none => []) ++
    (match dateF with | some d => [("date", DocValue.str d)] | none => []) ++
    (match roomIdF with | some r => [("roomId", DocValue.str r)] | none => [])

/-- GET /bookings (behind authorize('admin')): find(query) sorted by
createdAt descending. A filter on a path absent from the schema matches no
document (the filter is passed through to the database). -/
def getAllBookings (p : Principal) (statusF dateF roomIdF : Option String)
    (st : Store) : AllBookingsResult :=
  if p.role != "admin" then .forbidden
  else
    .ok (sortBy createdAtDescLe (st.bookings.filter (fun b =>
      (allBookingsFilters statusF dateF roomIdF).all
        (fun fv => decide (Booking.getField b fv.1 = some fv.2)))))

/-- GET /bookings/room/:roomId/availability: active bookings of the room in
the inclusive date range, sorted ascending, projected to their dates. -/
def checkRoomAvailability (roomId startDate endDate : String) (st : Store) :
    List String :=
  (sortBy bookingDateAscLe (st.bookings.filter (fun b =>
      b.roomId == roomId && strLe startDate b.bookingDate &&
        strLe b.bookingDate endDate && isActiveStatus b.status))).map
    (fun b => b.bookingDate)

/-- States of the booking store reachable through the orchestrator: the empty
collection, plus anything createBooking and cancelBooking produce. The read
operations (getUserBookings, getBookingById, getAllBookings,
checkRoomAvailability) return no store and so never change it. -/
inductive Reachable : Store → Prop
  | init : Reachable emptyStore
  | create (env : CreateEnv) {st : Store} :
      Reachable st → Reachable (createBooking env st).2
  | cancel (p : Principal) (id : Nat) {st : Store} :
      Reachable st → Reachable (cancelBooking p id st).2

/-! ### Schema indexes (models/Booking.js) -/

structure IndexSpec where
  keys : List (String × Int)
  unique : Bool
deriving DecidableEq, Repr

/-- All indexes declared by the Booking schema: the field-level index flags
on userId, roomId and bookingDate, the unique bookingReference, and the two
schema-level compound indexes. The compound (roomId, bookingDate, status)
index is declared without unique. -/
def bookingSchemaIndexes : List IndexSpec :=
  [ { keys := [("userId", 1)], unique := false },
    { keys := [("roomId", 1)], unique := false },
    { keys := [("bookingDate", 1)], unique := false },
    { keys := [("bookingReference", 1)], unique := true },
    { keys := [("roomId", 1), ("bookingDate", 1), ("status", 1)], unique := false },
    { keys := [("userId", 1), ("status", 1)], unique := false } ]

/-! ### Concrete sample data used to instantiate the theorems -/

def aliceP : Principal :=
  { id := "u1", email := "alice@example.com", name := "Alice", role := "user" }

def adminP : Principal :=
  { id := "adm", email := "root@example.com", name := "Root", role := "admin" }

def bobP : Principal :=
  { id := "u2", email := "bob@example.com", name := "Bob", role := "user" }

def room1 : Room :=
  { id := "aaaaaaaaaaaaaaaaaaaaaaaa", name := "Board Room", locationId := "loc1",
    locationName := "London Office", capacity := 10, basePrice := 100,
    isActive := true }

def okForecastData : Forecast :=
  { temperature := 27, deviation := 6, comfortableTemperature := 21,
    cached := false, fallback := false }

def okWeather : WeatherCallOutcome :=
  .success { success := true, data := okForecastData }

/-- jsDateCode "2026-10-12": the reference "today" of the samples. -/
def today1012 : Nat := 20261012

def baseEnv : CreateEnv :=
  { user := aliceP, roomId := "aaaaaaaaaaaaaaaaaaaaaaaa", date := "2026-10-20",
    today := today1012, roomLookup := .ok room1, weather := okWeather,
    comfortableTemp := 21, priceFactor := 1/20, saveFailure := none }

def bookingA : Booking :=
  { id := 0, userId := "u1", roomId := "aaaaaaaaaaaaaaaaaaaaaaaa",
    bookingDate := "2026-10-20", bookingReference := "BK0", basePrice := 100,
    temperature := 21, deviation := 0, adjustedPrice := 100,
    status := .confirmed, userEmail := "alice@example.com", userName := "Alice",
    roomName := "Board Room", locationName := "London Office", createdAt := 0 }

def bookingB : Booking :=
  { bookingA with id := 1, bookingReference := "BK1", createdAt := 1 }

def bookingDone : Booking :=
  { bookingA with id := 2, bookingReference := "BK2", status := .completed }

def envWeatherDown : CreateEnv :=
  { baseEnv with weather := .networkError "ECONNREFUSED" }

def envDupKey : CreateEnv :=
  { baseEnv with saveFailure := some "E11000 duplicate key error" }

def envToday : CreateEnv := { baseEnv with date := "2026-10-12" }

def envFeb30 : CreateEnv := { baseEnv with date := "2026-02-30" }

def storeA : Store := { bookings := [bookingA], nextId := 1 }

def storeAB : Store := { bookings := [bookingA, bookingB], nextId := 2 }

def storeDone : Store := { bookings := [bookingDone], nextId := 3 }

/-! ### Helper lemmas: stable sort -/

lemma insertBy_perm {α : Type} (le : α → α → Bool) (x : α) (l : List α) :
    (insertBy le x l).Perm (x :: l) := by
  induction l with
  | nil => simp [insertBy]
  | cons y ys ih =>
    simp only [insertBy]
    split
    · exact List.Perm.refl _
    · exact (ih.cons y).trans (List.Perm.swap x y ys)

lemma sortBy_perm {α : Type} (le : α → α → Bool) (l : List α) :
    (sortBy le l).Perm l := by
  induction l with
  | nil => simp [sortBy]
  | cons x xs ih => exact (insertBy_perm le x (sortBy le xs)).trans (ih.cons x)

lemma mem_insertBy {α : Type} {le : α → α → Bool} {x z : α} {l : List α}
    (h : z ∈ insertBy le x l) : z = x ∨ z ∈ l := by
  have := (insertBy_perm le x l).mem_iff.1 h
  simpa using this

lemma insertBy_pairwise {α : Type} {le : α → α → Bool}
    (htrans : ∀ a b c, le a b = true → le b c = true → le a c = true)
    (htot : ∀ a b, le a b = true ∨ le b a = true)
    (x : α) {l : List α} (h : l.Pairwise (fun a b => le a b = true)) :
    (insertBy le x l).Pairwise (fun a b => le a b = true) := by
  induction l with
  | nil => simp [insertBy]
  | cons y ys ih =>
    rcases List.pairwise_cons.1 h with ⟨hy, hys⟩
    simp only [insertBy]
    split
    case isTrue hxy =>
      refine List.pairwise_cons.2 ⟨?_, h⟩
      intro z hz
      rcases List.mem_cons.1 hz with rfl | hz
      · exact hxy
      · exact htrans x y z hxy (hy z hz)
    case isFalse hxy =>
      refine List.pairwise_cons.2 ⟨?_, ih hys⟩
      intro z hz
      rcases mem_insertBy hz with rfl | hz
      · rcases htot z y with hzy | hyz
        · exact absurd hzy hxy
        · exact hyz
      · exact hy z hz

lemma sortBy_pairwise {α : Type} {le : α → α → Bool}
    (htrans : ∀ a b c, le a b = true → le b c = true → le a c = true)
    (htot : ∀ a b, le a b = true ∨ le b a = true) (l : List α) :
    (sortBy le l).Pairwise (fun a b => le a b = true) := by
  induction l with
  | nil => simp [sortBy]
  | cons x xs ih => exact insertBy_pairwise htrans htot x ih

/-! ### Helper lemmas: bytewise string order -/

lemma charListLe_total : ∀ as bs, charListLe as bs = true ∨ charListLe bs as = true
  | [], _ => Or.inl rfl
  | _ :: _, [] => Or.inr rfl
  | a :: as, b :: bs => by
    by_cases hab : a = b
    · subst hab
      simp only [charListLe, if_pos rfl]
      exact charListLe_total as bs
    · rcases lt_trichotomy a b with h | h | h
      · left
        simp only [charListLe, if_neg hab]
        exact decide_eq_true h
      · exact absurd h hab
      · right
        have hba : b ≠ a := fun hba => hab hba.symm
        simp only [charListLe, if_neg hba]
        exact decide_eq_true h

lemma charListLe_trans : ∀ as bs cs, charListLe as bs = true →
    charListLe bs cs = true → charListLe as cs = true
  | [], _, _ => by intro _ _; rfl
  | _ :: _, [], _ => by intro h _; simp [charListLe] at h
  | _ :: _, _ :: _, [] => by intro _ h; simp [charListLe] at h
  | a :: as, b :: bs, c :: cs => by
    intro h1 h2
    by_cases hab : a = b
    · subst hab
      by_cases hac : a = c
      · subst hac
        simp only [charListLe, if_pos rfl] at h1 h2 ⊢
        exact charListLe_trans as bs cs h1 h2
      · simp only [charListLe, if_pos rfl] at h1
        simp only [charListLe, if_neg hac] at h2 ⊢
        exact h2
    · by_cases hbc : b = c
      · subst hbc
        simp only [charListLe, if_neg hab] at h1 ⊢
        exact h1
      · simp only [charListLe, if_neg hab] at h1
        simp only [charListLe, if_neg hbc] at h2
        have hac : a < c := lt_trans (of_decide_eq_true h1) (of_decide_eq_true h2)
        simp only [charListLe, if_neg (ne_of_lt hac)]
        exact decide_eq_true hac

lemma strLe_total (s t : String) : strLe s t = true ∨ strLe t s = true :=
  charListLe_total s.data t.data

lemma strLe_trans {s t u : String} (h1 : strLe s t = true) (h2 : strLe t u = true) :
    strLe s u = true :=
  charListLe_trans s.data t.data u.data h1 h2

/-! ### Helper lemmas: counting active bookings -/

lemma countP_le_one_eq {α : Type} {p : α → Bool} {l : List α}
    (h : l.countP p ≤ 1) {x y : α} (hx : x ∈ l) (hy : y ∈ l)
    (hpx : p x = true) (hpy : p y = true) : x = y := by
  have hfx : x ∈ l.filter p := List.mem_filter.2 ⟨hx, hpx⟩
  have hfy : y ∈ l.filter p := List.mem_filter.2 ⟨hy, hpy⟩
  have hlen : (l.filter p).length ≤ 1 := by
    rw [← List.countP_eq_length_filter]; exact h
  match hfl : l.filter p with
  | [] => rw [hfl] at hfx; cases hfx
  | [a] =>
    rw [hfl] at hfx hfy
    have hx1 : x = a := by simpa using hfx
    have hy1 : y = a := by simpa using hfy
    rw [hx1, hy1]
  | a :: b :: t =>
    rw [hfl] at hlen
    simp at hlen

lemma uniqueActive_of_short {st : Store} (h : st.bookings.length ≤ 1) :
    UniqueActiveInv st := by
  intro roomId date
  exact le_trans (List.countP_le_length _) h

/-! ### Invariant preservation -/

lemma activePred_mkBooking {env : CreateEnv} {room : Room} {forecast : Forecast}
    {pr : PriceResult} {st : Store} {r d : String}
    (h : activePred r d (mkBooking env room forecast pr st) = true) :
    env.roomId = r ∧ env.date = d := by
  simp only [activePred, mkBooking, isActiveStatus, Bool.and_eq_true, beq_iff_eq] at h
  exact ⟨h.1.1, h.1.2⟩

lemma createBooking_preserves (env : CreateEnv) (st : Store)
    (h : UniqueActiveInv st) : UniqueActiveInv (createBooking env st).2 := by
  unfold createBooking
  split
  next hval => exact h
  next hval =>
  split
  next hpast => exact h
  next hpast =>
  split
  next msg hroom => exact h
  next room hroom =>
  split
  next ex hfind => exact h
  next hfind =>
  split
  next msg hw => exact h
  next forecast hw =>
  split
  next msg hsave => exact h
  next hsave =>
  intro r d
  show ({ bookings := st.bookings ++ [mkBooking env room forecast
    (calculateAdjustedPrice room.basePrice forecast.temperature env.comfortableTemp
      env.priceFactor) st], nextId := st.nextId + 1 } : Store).bookings.countP
    (activePred r d) ≤ 1
  rw [List.countP_append]
  by_cases hp : activePred r d (mkBooking env room forecast
      (calculateAdjustedPrice room.basePrice forecast.temperature env.comfortableTemp
        env.priceFactor) st) = true
  · obtain ⟨hr, hd⟩ := activePred_mkBooking hp
    subst hr; subst hd
    have h0 : st.bookings.countP (activePred env.roomId env.date) = 0 := by
      apply List.countP_eq_zero.2
      intro a ha
      exact List.find?_eq_none.1 hfind a ha
    have h1 : List.countP (activePred env.roomId env.date) [mkBooking env room forecast
        (calculateAdjustedPrice room.basePrice forecast.temperature env.comfortableTemp
          env.priceFactor) st] ≤ 1 :=
      List.countP_le_length _
    simp only [List.length_cons, List.length_nil] at h1
    omega
  · have h1 : List.countP (activePred r d) [mkBooking env room forecast
        (calculateAdjustedPrice room.basePrice forecast.temperature env.comfortableTemp
          env.priceFactor) st] = 0 := by
      apply List.countP_eq_zero.2
      intro a ha
      simp only [List.mem_singleton] at ha
      subst ha
      exact fun hc => hp hc
    rw [h1]
    simpa using h r d

lemma cancelBooking_preserves (p : Principal) (id : Nat) (st : Store)
    (h : UniqueActiveInv st) : UniqueActiveInv (cancelBooking p id st).2 := by
  unfold cancelBooking
  split
  next hfind => exact h
  next b hfind =>
  split
  next hauth => exact h
  next hauth =>
  split
  next hc => exact h
  next hc =>
  split
  next hc2 => exact h
  next hc2 =>
  intro r d
  show (st.bookings.map (fun x =>
    if x.id == b.id then { x with status := BookingStatus.cancelled } else x)).countP
      (activePred r d) ≤ 1
  rw [List.countP_map]
  refine le_trans (List.countP_mono_left ?_) (h r d)
  intro x _ hpx
  simp only [Function.comp] at hpx
  by_cases hid : (x.id == b.id) = true
  · rw [if_pos hid] at hpx
    simp [activePred, isActiveStatus] at hpx
  · rw [if_neg hid] at hpx
    exact hpx

lemma reachable_inv : ∀ st, Reachable st → UniqueActiveInv st := by
  intro st h
  induction h with
  | init => exact uniqueActive_of_short (by simp [emptyStore])
  | create env hst ih => exact createBooking_preserves _ _ ih
  | cancel p id hst ih => exact cancelBooking_preserves _ _ _ ih

lemma created_status_and_probe (env : CreateEnv) (st : Store) (b : Booking)
    (pb : PriceBreakdown) (h : (createBooking env st).1 = .created b pb) :
    b.status = .confirmed ∧ findOneActive st env.roomId env.date = none := by
  unfold createBooking at h
  split at h
  next hval => cases h
  next hval =>
  split at h
  next hpast => cases h
  next hpast =>
  split at h
  next msg hroom => cases h
  next room hroom =>
  split at h
  next ex hfind => cases h
  next hfind =>
  split at h
  next msg hw => cases h
  next forecast hw =>
  split at h
  next msg hsave => cases h
  next hsave =>
  refine ⟨?_, hfind⟩
  have hb : b = mkBooking env room forecast
      (calculateAdjustedPrice room.basePrice forecast.temperature env.comfortableTemp
        env.priceFactor) st := by
    cases h
    rfl
  rw [hb]
  rfl

lemma dateIsPast_eq_false_of_validation {roomId date : String} {today : Nat}
    (h : bookingValidationPasses roomId date today = true) :
    dateIsPast date today = false := by
  unfold dateIsPast
  cases hjs : jsDateCode date with
  | none => rfl
  | some t =>
    unfold bookingValidationPasses at h
    rw [hjs] at h
    simp only [Bool.and_eq_true, decide_eq_true_eq] at h
    simp only [decide_eq_false_iff_not]
    exact h.2

lemma notEmpty_of_shape {s : String} (h : matchesDateShape s = true) :
    s.data.isEmpty = false := by
  unfold matchesDateShape at h
  rcases hd : s.data with - | ⟨c, cs⟩
  · rw [hd] at h
    cases h
  · simp

lemma getField_date (b : Booking) : b.getField "date" = none := rfl

/-! ### Claim theorems -/

/-- C1: every store state reachable through the orchestrator satisfies the
invariant that at most one booking with status in (confirmed, completed)
exists per (roomId, bookingDate) slot; the two state-changing operations
createBooking and cancelBooking preserve the invariant (the remaining
operations — getUserBookings, getBookingById, checkRoomAvailability,
getAllBookings — are read-only by type and return no store); and
createBooking inserts its confirmed booking only when the availability probe
found no live booking for the requested slot. -/
theorem uniqueActiveSlot_invariant :
    (∀ st, Reachable st → UniqueActiveInv st) ∧
    (∀ env st, UniqueActiveInv st → UniqueActiveInv (createBooking env st).2) ∧
    (∀ p id st, UniqueActiveInv st → UniqueActiveInv (cancelBooking p id st).2) ∧
    (∀ env st b pb, (createBooking env st).1 = .created b pb →
      b.status = .confirmed ∧ findOneActive st env.roomId env.date = none) :=
  ⟨reachable_inv, createBooking_preserves, cancelBooking_preserves,
    created_status_and_probe⟩

theorem uniqueActiveSlot_invariant_witness :
    UniqueActiveInv (createBooking baseEnv emptyStore).2 :=
  uniqueActiveSlot_invariant.1 _ (Reachable.create baseEnv Reachable.init)

/-- C3: the price calculator is a pure function of its four arguments; for
nonnegative basePrice and factor it returns the absolute deviation from the
comfortable temperature and the base price scaled by (1 + deviation *
factor) rounded half-up to two decimals; and it reproduces the reference
pricing table: (100, 21, 21, 0.05) gives (0, 100.00), (100, 18, 21, 0.05)
gives (3, 115.00), (250, 15, 21, 0.05) gives (6, 325.00). -/
theorem priceCalculator_formula_and_reference_values :
    (∀ basePrice temperature comfortableTemp factor : ℚ,
      0 ≤ basePrice → 0 ≤ factor →
      calculateAdjustedPrice basePrice temperature comfortableTemp factor =
        { deviation := |temperature - comfortableTemp|,
          adjustedPrice :=
            specRound2 (basePrice * (1 + |temperature - comfortableTemp| * factor)) }) ∧
    calculateAdjustedPrice 100 21 21 (1/20) = { deviation := 0, adjustedPrice := 100 } ∧
    calculateAdjustedPrice 100 18 21 (1/20) = { deviation := 3, adjustedPrice := 115 } ∧
    calculateAdjustedPrice 250 15 21 (1/20) = { deviation := 6, adjustedPrice := 325 } := by
  refine ⟨?_, ?_, ?_, ?_⟩
  · intro bp t ct f hbp hf
    have hnn : 0 ≤ bp * (1 + |t - ct| * f) := by positivity
    simp only [calculateAdjustedPrice, specRound2, round2, jsRound, if_pos hnn]
  · norm_num [calculateAdjustedPrice, round2, jsRound, PriceResult.mk.injEq]
  · norm_num [calculateAdjustedPrice, round2, jsRound, PriceResult.mk.injEq]
  · norm_num [calculateAdjustedPrice, round2, jsRound, PriceResult.mk.injEq]

theorem priceCalculator_formula_witness :
    calculateAdjustedPrice 250 15 21 (1/20) =
      { deviation := |(15 : ℚ) - 21|,
        adjustedPrice := specRound2 (250 * (1 + |(15 : ℚ) - 21| * (1/20))) } :=
  priceCalculator_formula_and_reference_values.1 250 15 21 (1/20)
    (by norm_num) (by norm_num)

/-- C2: evaluation of the wired weather client at the failing inputs. A
connection-refused network error (as when the oracle is down) and a plain
500 response are rethrown as 'Weather service unavailable' instead of being
converted to the fallback forecast, and createBooking then fails with the
generic 500 — contradicting the claim that getForecast never raises and that
booking creation never fails solely because the oracle is unavailable. The
fallback does fire for 429, a too-many-requests message, 503 and the axios
timeout (ECONNABORTED), and there it is the comfortable-temperature,
zero-deviation forecast with the fallback flag set. -/
theorem getForecast_unhandled_failures_raise :
    getForecast 21 (.networkError "ECONNREFUSED") =
      .error "Weather service unavailable" ∧
    getForecast 21 (.httpError 500 none) = .error "Weather service unavailable" ∧
    getForecast 21 (.httpError 500 (some "boom")) = .error "boom" ∧
    getForecast 21 (.success { success := false, data := okForecastData }) =
      .error "Weather service unavailable" ∧
    (createBooking envWeatherDown emptyStore).1 =
      .serverError "Weather service unavailable" ∧
    (createBooking envWeatherDown emptyStore).2 = emptyStore ∧
    getForecast 21 (.httpError 429 none) = .ok (defaultForecast 21) ∧
    getForecast 21 (.httpError 400 (some "Too many requests, slow down")) =
      .ok (defaultForecast 21) ∧
    getForecast 21 (.httpError 503 none) = .ok (defaultForecast 21) ∧
    getForecast 21 (.networkError "ECONNABORTED") = .ok (defaultForecast 21) ∧
    (defaultForecast 21).temperature = 21 ∧ (defaultForecast 21).deviation = 0 ∧
    (defaultForecast 21).fallback = true :=
  ⟨rfl, rfl, rfl, rfl, rfl, rfl, rfl, rfl, rfl, rfl, rfl, rfl, rfl⟩

/-- C4: when request validation passes, the room lookup succeeds, and the
availability probe finds a live booking for the requested slot, createBooking
answers SlotAlreadyBooked carrying exactly the conflicting booking's id,
date and status, the store is left unchanged, the conflicting booking really
is a live booking of that slot stored in the collection, and the whole
outcome is independent of the weather-oracle outcome (the forecast call is
skipped). -/
theorem createBooking_conflict_rejects_without_weather (env : CreateEnv)
    (st : Store) (room : Room) (ex : Booking)
    (hval : bookingValidationPasses env.roomId env.date env.today = true)
    (hroom : validateRoom env.roomLookup = .ok room)
    (hfind : findOneActive st env.roomId env.date = some ex) :
    (createBooking env st).1 = .slotAlreadyBooked ex.id ex.bookingDate ex.status ∧
    (createBooking env st).2 = st ∧
    activePred env.roomId env.date ex = true ∧
    ex ∈ st.bookings ∧
    (∀ w, createBooking { env with weather := w } st = createBooking env st) := by
  have hpast := dateIsPast_eq_false_of_validation hval
  have hmain : ∀ w, createBooking { env with weather := w } st =
      (.slotAlreadyBooked ex.id ex.bookingDate ex.status, st) := by
    intro w
    unfold createBooking
    simp [hval, hpast, hroom, hfind]
  refine ⟨?_, ?_, List.find?_some hfind, List.mem_of_find?_eq_some hfind, ?_⟩
  · exact congrArg Prod.fst (hmain env.weather)
  · exact congrArg Prod.snd (hmain env.weather)
  · intro w
    rw [hmain w]
    exact (hmain env.weather).symm

theorem createBooking_conflict_witness :
    (createBooking baseEnv storeA).1 =
      .slotAlreadyBooked bookingA.id bookingA.bookingDate bookingA.status :=
  (createBooking_conflict_rejects_without_weather baseEnv storeA room1 bookingA
    (by decide) rfl rfl).1

/-- C5 counterexample: the Booking schema's only unique index is the one on
bookingReference — the compound (roomId, bookingDate, status) index carries
no unique flag, so there is no database-enforced uniqueness over the slot —
and when the insert at the end of createBooking fails with a storage-level
duplicate-key error, the result is the generic 500 carrying the error
message, not SlotAlreadyBooked. -/
theorem bookingSchema_no_unique_slot_index :
    (bookingSchemaIndexes.filter (fun ix => ix.unique)).map (fun ix => ix.keys) =
      [[("bookingReference", 1)]] ∧
    (createBooking envDupKey emptyStore).1 =
      .serverError "E11000 duplicate key error" := by
  refine ⟨by decide, rfl⟩

/-- C5 amended: the (roomId, bookingDate, status) index is non-unique (only
bookingReference has a unique index), so the slot-uniqueness of the store
rests solely on the application-level find-then-insert of createBooking; any
storage-level failure of the final save — a duplicate-key violation included
— is surfaced by the generic catch handler as a 500 with the error's
message, never as SlotAlreadyBooked, and leaves the store unchanged. -/
theorem bookingStore_uniqueness_is_application_level (env : CreateEnv)
    (st : Store) (room : Room) (f : Forecast) (msg : String)
    (hval : bookingValidationPasses env.roomId env.date env.today = true)
    (hroom : validateRoom env.roomLookup = .ok room)
    (hfind : findOneActive st env.roomId env.date = none)
    (hw : getForecast env.comfortableTemp env.weather = .ok f)
    (hsave : env.saveFailure = some msg) :
    createBooking env st = (.serverError msg, st) ∧
    ∀ ix ∈ bookingSchemaIndexes, ix.unique = true →
      ix.keys = [("bookingReference", 1)] := by
  constructor
  · have hpast := dateIsPast_eq_false_of_validation hval
    unfold createBooking
    simp [hval, hpast, hroom, hfind, hw, hsave]
  · decide

theorem bookingStore_uniqueness_witness :
    createBooking envDupKey emptyStore =
      (.serverError "E11000 duplicate key error", emptyStore) :=
  (bookingStore_uniqueness_is_application_level envDupKey emptyStore room1
    okForecastData "E11000 duplicate key error" (by decide) rfl rfl rfl rfl).1

/-- C6 counterexample: with today = 2026-10-12, a booking request for
2026-10-12 itself passes the validator's date check and the controller's
date check (both compare with strict <, so "equal to today" is accepted,
and with the sample environment the booking is created rather than rejected
with InvalidDate); likewise the shape-valid but non-calendar date string
2026-02-30 parses to an Invalid Date whose NaN comparison is false, passes
both checks, and is booked. -/
theorem createBooking_accepts_today_and_nonCalendar_dates :
    jsDateCode "2026-10-12" = some today1012 ∧
    bookingValidationPasses "aaaaaaaaaaaaaaaaaaaaaaaa" "2026-10-12" today1012 = true ∧
    dateIsPast "2026-10-12" today1012 = false ∧
    (createBooking envToday emptyStore).1 ≠ .invalidDate ∧
    (createBooking envToday emptyStore).1 ≠ .validationFailed ∧
    (createBooking envToday emptyStore).1.isCreated = true ∧
    jsDateCode "2026-02-30" = none ∧
    bookingValidationPasses "aaaaaaaaaaaaaaaaaaaaaaaa" "2026-02-30" today1012 = true ∧
    (createBooking envFeb30 emptyStore).1 ≠ .invalidDate ∧
    (createBooking envFeb30 emptyStore).1 ≠ .validationFailed ∧
    (createBooking envFeb30 emptyStore).1.isCreated = true := by
  decide

/-- C6 amended: a booking date strictly before today (comparing the UTC
midnights) is rejected by the validation middleware (whose error list carries
'Booking date must be in the future'); a string not matching the
^\d{4}-\d{2}-\d{2}$ regex is rejected by validation; but a date equal to
today passes both date checks, as does a shape-matching string that is not a
real calendar date (its JS Date is NaN and NaN comparisons are false); a
calendar date not before today is never rejected by either date check. -/
theorem createBooking_date_validation_behaviour (env : CreateEnv) (t : Nat)
    (hroom : (!env.roomId.data.isEmpty && isMongoId env.roomId) = true) :
    (matchesDateShape env.date = false →
      ∀ st, (createBooking env st).1 = .validationFailed) ∧
    (matchesDateShape env.date = true → jsDateCode env.date = some t →
      t < env.today → ∀ st, (createBooking env st).1 = .validationFailed) ∧
    (matchesDateShape env.date = true → jsDateCode env.date = some t →
      ¬ t < env.today → ∀ st, (createBooking env st).1 ≠ .validationFailed ∧
        (createBooking env st).1 ≠ .invalidDate) ∧
    (matchesDateShape env.date = true → jsDateCode env.date = none →
      ∀ st, (createBooking env st).1 ≠ .validationFailed ∧
        (createBooking env st).1 ≠ .invalidDate) := by
  simp only [Bool.and_eq_true] at hroom
  refine ⟨?_, ?_, ?_, ?_⟩
  · intro hshape st
    have hv : bookingValidationPasses env.roomId env.date env.today = false := by
      simp [bookingValidationPasses, hshape]
    unfold createBooking
    simp [hv]
  · intro hshape hjs ht st
    have hv : bookingValidationPasses env.roomId env.date env.today = false := by
      simp [bookingValidationPasses, hjs, ht]
    unfold createBooking
    simp [hv]
  · intro hshape hjs ht st
    have hv : bookingValidationPasses env.roomId env.date env.today = true := by
      simp [bookingValidationPasses, hroom.1, hroom.2, notEmpty_of_shape hshape,
        hshape, hjs, ht]
    have hpast : dateIsPast env.date env.today = false := by
      simp [dateIsPast, hjs, ht]
    unfold createBooking
    simp only [hv, hpast, Bool.not_true, Bool.false_eq_true, if_false]
    constructor
    · split
      · simp
      · split
        · simp
        · split
          · simp
          · split
            · simp
            · simp
    · split
      · simp
      · split
        · simp
        · split
          · simp
          · split
            · simp
            · simp
  · intro hshape hjs st
    have hv : bookingValidationPasses env.roomId env.date env.today = true := by
      simp [bookingValidationPasses, hroom.1, hroom.2, notEmpty_of_shape hshape,
        hshape, hjs]
    have hpast : dateIsPast env.date env.today = false := by
      simp [dateIsPast, hjs]
    unfold createBooking
    simp only [hv, hpast, Bool.not_true, Bool.false_eq_true, if_false]
    constructor
    · split
      · simp
      · split
        · simp
        · split
          · simp
          · split
            · simp
            · simp
    · split
      · simp
      · split
        · simp
        · split
          · simp
          · split
            · simp
            · simp

theorem createBooking_date_validation_witness :
    (createBooking envToday emptyStore).1 ≠ .validationFailed ∧
    (createBooking envToday emptyStore).1 ≠ .invalidDate :=
  ((createBooking_date_validation_behaviour envToday today1012
    (by decide)).2.2.1 rfl rfl (by decide)) emptyStore

/-- C7: for an authorized principal (owner or admin), cancelBooking on an
already-cancelled booking fails with AlreadyCancelled and on a completed
booking with CannotCancelCompleted, both leaving the store unchanged; on a
confirmed booking it answers with the booking flipped to cancelled, and —
when the store satisfied the uniqueness invariant — the (roomId,
bookingDate) slot of the cancelled booking is afterwards reported free by
the availability probe, so a subsequent createBooking for that slot can
never be rejected with SlotAlreadyBooked. -/
theorem cancelBooking_state_machine (p : Principal) (id : Nat) (st : Store)
    (b : Booking)
    (hfind : findById st id = some b)
    (hauth : b.userId = p.id ∨ p.role = "admin") :
    (b.status = .cancelled → cancelBooking p id st = (.alreadyCancelled, st)) ∧
    (b.status = .completed → cancelBooking p id st = (.cannotCancelCompleted, st)) ∧
    (b.status = .confirmed →
      (cancelBooking p id st).1 = .cancelled { b with status := .cancelled } ∧
      (UniqueActiveInv st →
        findOneActive (cancelBooking p id st).2 b.roomId b.bookingDate = none ∧
        ∀ env, env.roomId = b.roomId → env.date = b.bookingDate →
          ∀ i dd s, (createBooking env (cancelBooking p id st).2).1 ≠
            .slotAlreadyBooked i dd s)) := by
  have hcond : (b.userId != p.id && p.role != "admin") = false := by
    rcases hauth with h | h <;> simp [h]
  refine ⟨?_, ?_, ?_⟩
  · intro hst
    simp [cancelBooking, hfind, hcond, hst]
  · intro hst
    simp [cancelBooking, hfind, hcond, hst]
  · intro hst
    have hres : (cancelBooking p id st).1 = .cancelled { b with status := .cancelled } := by
      simp [cancelBooking, hfind, hcond, hst]
    refine ⟨hres, ?_⟩
    intro hinv
    have hstore : (cancelBooking p id st).2 =
        { st with bookings := st.bookings.map (fun x =>
            if x.id == b.id then { x with status := BookingStatus.cancelled }
            else x) } := by
      simp [cancelBooking, hfind, hcond, hst]
    have hA : findOneActive (cancelBooking p id st).2 b.roomId b.bookingDate = none := by
      rw [hstore]
      unfold findOneActive
      apply List.find?_eq_none.2
      intro x hx
      rw [List.mem_map] at hx
      obtain ⟨x0, hx0, rfl⟩ := hx
      by_cases hid : (x0.id == b.id) = true
      · intro hcontra
        rw [if_pos hid] at hcontra
        simp [activePred, isActiveStatus] at hcontra
      · intro hcontra
        rw [if_neg hid] at hcontra
        have hb_mem : b ∈ st.bookings := List.mem_of_find?_eq_some hfind
        have hpb : activePred b.roomId b.bookingDate b = true := by
          simp [activePred, isActiveStatus, hst]
        have hx0b : x0 = b :=
          countP_le_one_eq (hinv b.roomId b.bookingDate) hx0 hb_mem hcontra hpb
        rw [hx0b] at hid
        exact hid (by simp)
    refine ⟨hA, ?_⟩
    intro env hr hd i dd s hcontra
    unfold createBooking at hcontra
    split at hcontra
    next => cases hcontra
    next =>
    split at hcontra
    next => cases hcontra
    next =>
    split at hcontra
    next msg hrm => cases hcontra
    next room hrm =>
    split at hcontra
    next ex hfind2 =>
      rw [hr, hd, hA] at hfind2
      cases hfind2
    next hfind2 =>
    split at hcontra
    next msg hw => cases hcontra
    next forecast hw =>
    split at hcontra
    next msg hsv => cases hcontra
    next hsv => cases hcontra

theorem cancelBooking_state_machine_witness :
    (cancelBooking adminP 0 storeA).1 =
      .cancelled { bookingA with status := BookingStatus.cancelled } :=
  ((cancelBooking_state_machine adminP 0 storeA bookingA rfl (Or.inr rfl)).2.2
    rfl).1

/-- C8: getUserBookings, getBookingById (for an existing booking) and
cancelBooking answer Forbidden exactly when the principal is neither the
owner (the requested userId, respectively the booking's userId) nor an
admin; owners and admins are never rejected with Forbidden. -/
theorem authorization_owner_or_admin (p : Principal) (uid : String)
    (statusFilter : Option String) (bid : Nat) (st : Store) (b : Booking)
    (hfind : findById st bid = some b) :
    (getUserBookings p uid statusFilter st = .forbidden ↔
      (p.id ≠ uid ∧ p.role ≠ "admin")) ∧
    (getBookingById p bid st = .forbidden ↔
      (b.userId ≠ p.id ∧ p.role ≠ "admin")) ∧
    ((cancelBooking p bid st).1 = .forbidden ↔
      (b.userId ≠ p.id ∧ p.role ≠ "admin")) := by
  refine ⟨?_, ?_, ?_⟩
  · by_cases h1 : p.id = uid
    · simp [getUserBookings, h1]
    · by_cases h2 : p.role = "admin"
      · simp [getUserBookings, h1, h2]
      · simp [getUserBookings, h1, h2]
  · by_cases h1 : b.userId = p.id
    · simp [getBookingById, hfind, h1]
    · by_cases h2 : p.role = "admin"
      · simp [getBookingById, hfind, h1, h2]
      · simp [getBookingById, hfind, h1, h2]
  · by_cases h1 : b.userId = p.id
    · cases hb : b.status <;> simp [cancelBooking, hfind, h1, hb]
    · by_cases h2 : p.role = "admin"
      · cases hb : b.status <;> simp [cancelBooking, hfind, h1, h2, hb]
      · simp [cancelBooking, hfind, h1, h2]

theorem authorization_owner_or_admin_witness :
    getUserBookings bobP "u1" none storeA = .forbidden ∧
    getBookingById bobP 0 storeA = .forbidden ∧
    (cancelBooking bobP 0 storeA).1 = .forbidden :=
  ⟨(authorization_owner_or_admin bobP "u1" none 0 storeA bookingA rfl).1.2
      ⟨by decide, by decide⟩,
    (authorization_owner_or_admin bobP "u1" none 0 storeA bookingA rfl).2.1.2
      ⟨by decide, by decide⟩,
    (authorization_owner_or_admin bobP "u1" none 0 storeA bookingA rfl).2.2.2
      ⟨by decide, by decide⟩⟩

/-- C9 counterexample: in a store holding two bookings of the same user for
the same bookingDate, created in the order bookingA (createdAt 0) then
bookingB (createdAt 1), the owner's getUserBookings returns the
earlier-created booking first: the single-key bookingDate sort leaves
equal-date bookings in store order (creation ascending), not in the claimed
creation-time descending order. -/
theorem getUserBookings_tie_not_creationDesc :
    getUserBookings aliceP "u1" none storeAB = .ok [bookingA, bookingB] ∧
    bookingA.bookingDate = bookingB.bookingDate ∧
    bookingA.createdAt < bookingB.createdAt :=
  ⟨rfl, rfl, by decide⟩

/-- C9 amended: getUserBookings (for an authorized principal) returns the
user's optionally status-filtered bookings sorted by bookingDate descending;
the result is a permutation of the filtered store content; no secondary
creation-time tie-break is applied — equal-date bookings keep the store's
order. -/
theorem getUserBookings_sorted_dateDesc (p : Principal) (uid : String)
    (statusFilter : Option String) (st : Store)
    (hauth : p.id = uid ∨ p.role = "admin") :
    getUserBookings p uid statusFilter st =
      .ok (sortBy bookingDateDescLe
        (st.bookings.filter (userBookingsFilter uid statusFilter))) ∧
    (sortBy bookingDateDescLe
        (st.bookings.filter (userBookingsFilter uid statusFilter))).Pairwise
      (fun a b => strLe b.bookingDate a.bookingDate = true) ∧
    (sortBy bookingDateDescLe
        (st.bookings.filter (userBookingsFilter uid statusFilter))).Perm
      (st.bookings.filter (userBookingsFilter uid statusFilter)) := by
  refine ⟨?_, ?_, sortBy_perm _ _⟩
  · have hcond : (p.id != uid && p.role != "admin") = false := by
      rcases hauth with h | h <;> simp [h]
    simp [getUserBookings, hcond]
  · exact @sortBy_pairwise Booking bookingDateDescLe
      (fun a b c hab hbc => strLe_trans hbc hab)
      (fun a b => strLe_total b.bookingDate a.bookingDate) _

theorem getUserBookings_sorted_dateDesc_witness :
    getUserBookings aliceP "u1" none storeAB =
      .ok (sortBy bookingDateDescLe
        (storeAB.bookings.filter (userBookingsFilter "u1" none))) :=
  (getUserBookings_sorted_dateDesc aliceP "u1" none storeAB (Or.inl rfl)).1

/-- C10: getAllBookings copies a requested date filter under the query key
`date`, a path no stored booking document has, so whenever the date filter
is present the find matches nothing: the returned list is empty, and in
particular it is never the set of bookings whose bookingDate equals the
requested date when such bookings exist. -/
theorem getAllBookings_date_filter_matches_nothing (p : Principal) (st : Store)
    (d : String) (statusF roomIdF : Option String)
    (hadmin : p.role = "admin")
    (hex : st.bookings.filter (fun b => b.bookingDate == d) ≠ []) :
    getAllBookings p statusF (some d) roomIdF st = .ok [] ∧
    getAllBookings p statusF (some d) roomIdF st ≠
      .ok (st.bookings.filter (fun b => b.bookingDate == d)) := by
  have hrole : (p.role != "admin") = false := by simp [hadmin]
  have hfilter : st.bookings.filter (fun b =>
      (allBookingsFilters statusF (some d) roomIdF).all
        (fun fv => decide (Booking.getField b fv.1 = some fv.2))) = [] := by
    rw [List.filter_eq_nil_iff]
    intro b hb
    simp [allBookingsFilters, List.all_append, getField_date]
  have h1 : getAllBookings p statusF (some d) roomIdF st = .ok [] := by
    simp [getAllBookings, hrole, hfilter, sortBy]
  refine ⟨h1, ?_⟩
  rw [h1]
  intro hcontra
  have hnil : ([] : List Booking) =
      st.bookings.filter (fun b => b.bookingDate == d) := by
    simpa using hcontra
  exact hex hnil.symm

theorem getAllBookings_date_filter_witness :
    getAllBookings adminP none (some "2026-10-20") none storeA = .ok [] :=
  (getAllBookings_date_filter_matches_nothing adminP storeA "2026-10-20" none
    none rfl (by decide)).1

end ConferenceBooking
